import Mathlib

/-!
Verification development for the CrossCountry-Tracker beacon pipeline.

The Python sources (`scanner.py`, `main.py`) are shallowly embedded below:
machine values that Python stores as `int` become `Int`, `float` fields that
are only carried (never computed with) become `Rat`, raising an exception
becomes returning an `Except`/sum value, and the network is a pure function
from the attempt index to the response the collector would give that attempt.
The urllib3 `Retry` machinery configured in `HTTPClient._create_session` is
embedded following urllib3 2.x (`Retry.increment`, `Retry.get_backoff_time`
with `DEFAULT_BACKOFF_MAX = 120`, `raise_on_status=True`), since `scanner.py`
only passes parameters to it.
-/

namespace CrossCountry

/-- Configuration record mirroring the fields read in `SystemConfig.__init__`
of `scanner.py`; every numeric field is parsed there with Python `int(...)`,
so it is modelled as `Int`. -/
structure SystemConfig where
  ENDPOINT : String
  BEACON_UUID : String
  RSSI_THRESHOLD : Int
  SCAN_INTERVAL : Int
  CHECKPOINT_ID : Int
  BATCH_SIZE : Int
  BATCH_TIMEOUT : Int
  MAX_RETRIES : Int
  RETRY_DELAY : Int
  REQUEST_TIMEOUT : Int
  deriving DecidableEq, Repr

/-- Default values of every configuration field, as given to `os.getenv` in
`SystemConfig.__init__`. -/
def defaultConfig : SystemConfig where
  ENDPOINT := "http://localhost:8000/enhanced_handler.php"
  BEACON_UUID := "b9407f30-f5f8-466e-aff9-25556b57fe6d"
  RSSI_THRESHOLD := -75
  SCAN_INTERVAL := 2
  CHECKPOINT_ID := 1
  BATCH_SIZE := 10
  BATCH_TIMEOUT := 5
  MAX_RETRIES := 3
  RETRY_DELAY := 1
  REQUEST_TIMEOUT := 5

/-- Body of `SystemConfig._validate_config` in `scanner.py`: raising a
`ValueError` is modelled as returning `Except.error` with its message. The
source checks only the RSSI threshold (rejecting values greater than 0) and
the scan interval (rejecting values below 1); no other field is examined. -/
def SystemConfig.validate_config (c : SystemConfig) : Except String Unit :=
  if c.RSSI_THRESHOLD > 0 then .error "RSSI_THRESHOLD should be negative"
  else if c.SCAN_INTERVAL < 1 then .error "SCAN_INTERVAL must be at least 1 second"
  else .ok ()

/-- Construction of a `SystemConfig` (`SystemConfig.__init__`): the record is
built from the already-parsed environment values and `_validate_config` is
called; a `ValueError` raised there propagates, so construction fails. -/
def SystemConfig.construct (c : SystemConfig) : Except String SystemConfig :=
  match c.validate_config with
  | .ok _ => .ok c
  | .error e => .error e

/-- C1 counterexample: a configuration whose `BATCH_SIZE` is 0 (< 1) is
constructed successfully, so construction does not fail for every
`batchSize` value below 1. -/
theorem construct_accepts_zero_batch_size :
    (0 : Int) < 1 ∧
      SystemConfig.construct { defaultConfig with BATCH_SIZE := 0 } =
        .ok { defaultConfig with BATCH_SIZE := 0 } := by
  exact ⟨by norm_num, rfl⟩

/-- C1 (amended): construction succeeds exactly when `RSSI_THRESHOLD ≤ 0` and
`SCAN_INTERVAL ≥ 1`; the endpoint URL, `BATCH_SIZE`, `BATCH_TIMEOUT`,
`MAX_RETRIES`, `RETRY_DELAY` and `REQUEST_TIMEOUT` are never validated, so
violating those constraints does not fail construction. -/
theorem construct_ok_iff (c : SystemConfig) :
    SystemConfig.construct c = .ok c ↔ c.RSSI_THRESHOLD ≤ 0 ∧ 1 ≤ c.SCAN_INTERVAL := by
  unfold SystemConfig.construct SystemConfig.validate_config
  constructor
  · intro h
    by_cases h1 : c.RSSI_THRESHOLD > 0
    · simp [h1] at h
    · by_cases h2 : c.SCAN_INTERVAL < 1
      · simp [h1, h2] at h
      · exact ⟨le_of_not_lt h1, le_of_not_lt h2⟩
  · rintro ⟨h1, h2⟩
    simp [not_lt.mpr h1, not_lt.mpr h2]

/-- C1 witness: the default configuration satisfies both checked constraints
and is constructed successfully. -/
theorem construct_ok_iff_witness :
    SystemConfig.construct defaultConfig = .ok defaultConfig :=
  (construct_ok_iff defaultConfig).mpr (by decide)

/-- C5: evaluation of the code at the failing input `RSSI_THRESHOLD = 0`:
the check in `_validate_config` is `> 0`, so a threshold of exactly 0 is
accepted even though the accompanying `ValueError` message says the
threshold should be negative. -/
theorem construct_accepts_zero_threshold :
    (0 : Int) ≥ 0 ∧
      SystemConfig.construct { defaultConfig with RSSI_THRESHOLD := 0 } =
        .ok { defaultConfig with RSSI_THRESHOLD := 0 } := by
  exact ⟨le_refl 0, rfl⟩

/-- JSON value, used to model what `response.json()` can return. -/
inductive JsonVal where
  | null
  | bool (b : Bool)
  | num (n : Int)
  | str (s : String)
  | obj (fields : List (String × JsonVal))

/-- Body of an HTTP response: either text that fails to parse as JSON
(`response.json()` raises `JSONDecodeError`) or a parsed JSON value. -/
inductive Body where
  | invalid
  | json (v : JsonVal)

/-- One HTTP response as seen by the client: status code and body. -/
structure HttpResp where
  status : Nat
  body : Body

/-- The `status_forcelist` passed to `Retry` in `HTTPClient._create_session`. -/
def status_forcelist : List Nat := [408, 429, 500, 502, 503, 504]

/-- Whether the session-level retry machinery retries a status: membership in
the force list (the request method is POST, which is in `allowed_methods`). -/
def isRetryable (s : Nat) : Bool := status_forcelist.contains s

/-- Maximum backoff applied by urllib3, `Retry.DEFAULT_BACKOFF_MAX` seconds. -/
def DEFAULT_BACKOFF_MAX : Int := 120

/-- Sleep urllib3 inserts before the n-th retry (n ≥ 1), per
`Retry.get_backoff_time`: when the consecutive-error history holds at most
one entry the sleep is 0 — so the first retry never sleeps — and otherwise
it is `backoff_factor * 2**(n-1)`, floored at 0 and capped at
`DEFAULT_BACKOFF_MAX`; the `backoff_factor` configured in `_create_session`
is `RETRY_DELAY`. -/
def getBackoffTime (backoff_factor : Int) (n : Nat) : Int :=
  if n ≤ 1 then 0
  else max 0 (min (backoff_factor * 2 ^ (n - 1)) DEFAULT_BACKOFF_MAX)

/-- Final state of a `session.post` call: either a response handed back to the
caller, or urllib3 raising `MaxRetryError` after exhausting retries on a
force-listed status (`raise_on_status=True`), which requests surfaces as a
`RetryError` carrying no response. -/
inductive SessionFinal where
  | response (r : HttpResp)
  | retryError

/-- Trace of one `session.post` call: how many requests went on the wire, the
backoff sleeps between them (in order), and the final state. -/
structure SessionResult where
  attempts : Nat
  backoffs : List Int
  final : SessionFinal

/-- Retry loop of the mounted `HTTPAdapter` for a POST with `status_forcelist`
and `total = MAX_RETRIES`: the response to the i-th request is `net i`; on a
force-listed status, if retries remain, sleep `getBackoffTime` for the next
retry number and resend, otherwise raise (`raise_on_status`). The argument
`i` counts requests already made. -/
def sessionLoop (backoff_factor : Int) (net : Nat → HttpResp) :
    Nat → Nat → SessionResult
  | 0, i =>
      if isRetryable (net i).status then ⟨i + 1, [], .retryError⟩
      else ⟨i + 1, [], .response (net i)⟩
  | n + 1, i =>
      if isRetryable (net i).status then
        let rest := sessionLoop backoff_factor net n (i + 1)
        ⟨rest.attempts, getBackoffTime backoff_factor (i + 1) :: rest.backoffs, rest.final⟩
      else ⟨i + 1, [], .response (net i)⟩

/-- One `session.post(...)` as configured by `HTTPClient._create_session`:
`Retry(total=MAX_RETRIES, backoff_factor=RETRY_DELAY, ...)`. A negative
`MAX_RETRIES` behaves like 0 (urllib3 raises once the counter is negative),
matching `Int.toNat`. -/
def sessionPost (cfg : SystemConfig) (net : Nat → HttpResp) : SessionResult :=
  sessionLoop cfg.RETRY_DELAY net cfg.MAX_RETRIES.toNat 0

/-- Predicate for `Response.raise_for_status`: requests raises `HTTPError`
exactly for status codes in 400–599. -/
def raisesForStatus (s : Nat) : Bool := 400 ≤ s && s < 600

/-- Success statuses in the sense of the spec (2xx). -/
def is2xx (s : Nat) : Bool := 200 ≤ s && s < 300

/-- The `BeaconData` dataclass of `scanner.py`; its `float` fields are only
carried, never computed with, so they are modelled as `Rat`. -/
structure BeaconData where
  minor : Int
  rssi : Int
  timestamp : Rat
  battery_level : Option Int
  temperature : Option Rat
  humidity : Option Rat
  deriving DecidableEq, Repr

/-- Value stored under one key of the request payload dict. -/
inductive FieldVal where
  | intVal (n : Int)
  | ratVal (q : Rat)
  | optIntVal (n : Option Int)
  | optRatVal (q : Option Rat)
  deriving DecidableEq, Repr

/-- Model of `dataclasses.asdict(data)`: a fresh dict holding the dataclass
fields in declaration order; mutating it cannot affect the `BeaconData`. -/
def asdict (d : BeaconData) : List (String × FieldVal) :=
  [("minor", .intVal d.minor), ("rssi", .intVal d.rssi),
   ("timestamp", .ratVal d.timestamp),
   ("battery_level", .optIntVal d.battery_level),
   ("temperature", .optRatVal d.temperature),
   ("humidity", .optRatVal d.humidity)]

/-- Payload posted by `send_beacon_data`: `asdict(data)` followed by
`payload['checkpoint_id'] = self.config.CHECKPOINT_ID`, which inserts a new
key at the end of the dict. -/
def buildPayload (cfg : SystemConfig) (d : BeaconData) : List (String × FieldVal) :=
  asdict d ++ [("checkpoint_id", .intVal cfg.CHECKPOINT_ID)]

/-- How `send_beacon_data` terminates, as seen by its caller: returning the
parsed response object, raising `HTTPError` (with the status code of the
response when one is attached), or raising `ValueError` for an invalid
response body. -/
inductive SendOutcome where
  | success (resp : List (String × JsonVal))
  | httpError (status : Option Nat)
  | invalidResponse (msg : String)

/-- Response-validation block of `send_beacon_data`: `response.json()` (a
parse failure raises `ValueError "Invalid JSON response"`), then
`isinstance(response_data, dict)`, then `'status' in response_data`. -/
def validateResponse (b : Body) : SendOutcome :=
  match b with
  | .invalid => .invalidResponse "Invalid JSON response"
  | .json (.obj fields) =>
      if (fields.map Prod.fst).contains "status" then .success fields
      else .invalidResponse "Response missing 'status' field"
  | .json _ => .invalidResponse "Response must be a JSON object"

/-- Everything observable about one `send_beacon_data` call: the payload it
posts (identical on every attempt), the wire attempts and backoffs of the
underlying session call, the outcome, and the values held by the shared
configuration and the input record after the call returns or raises. -/
structure SendResult where
  payload : List (String × FieldVal)
  attempts : Nat
  backoffs : List Int
  outcome : SendOutcome
  finalConfig : SystemConfig
  finalData : BeaconData

/-- Model of `HTTPClient.send_beacon_data`: build the payload, post it through
the retrying session, then `raise_for_status` and validate the body. A
`RetryError` after exhausted retries has no response attached, so the
`HTTPError` re-raised by the generic `RequestException` branch carries no
status; a `raise_for_status` failure carries the response status. The
`ValueError`s raised by validation are logged and re-raised unchanged. -/
def send_beacon_data (cfg : SystemConfig) (net : Nat → HttpResp) (d : BeaconData) :
    SendResult :=
  let payload := buildPayload cfg d
  let s := sessionPost cfg net
  let outcome :=
    match s.final with
    | .retryError => SendOutcome.httpError none
    | .response r =>
        if raisesForStatus r.status then SendOutcome.httpError (some r.status)
        else validateResponse r.body
  ⟨payload, s.attempts, s.backoffs, outcome, cfg, d⟩

/-- Sample record used to evaluate the model at concrete inputs. -/
def sampleData : BeaconData :=
  ⟨96, -60, 1700000000, some 87, some 21, some 44⟩

/-- Response body `{"status": "ok"}`. -/
def okBody : Body := .json (.obj [("status", .str "ok")])

/-- Collector behaviour for Scenario C: HTTP 503 twice, then 200 with a valid
body. -/
def net503twice : Nat → HttpResp :=
  fun i => if i < 2 then ⟨503, okBody⟩ else ⟨200, okBody⟩

/-- Collector behaviour for Scenario D: HTTP 400 on every attempt. -/
def net400 : Nat → HttpResp := fun _ => ⟨400, okBody⟩

/-- Collector answering 304 Not Modified with a well-formed body. -/
def net304 : Nat → HttpResp := fun _ => ⟨304, okBody⟩

/-- Collector answering 200 with a well-formed body. -/
def net200 : Nat → HttpResp := fun _ => ⟨200, okBody⟩

/-- A non-force-listed status stops the session loop at once with that
response, whatever the remaining retry budget. -/
theorem sessionLoop_not_retryable (bf : Int) (net : Nat → HttpResp) (k i : Nat)
    (h : isRetryable (net i).status = false) :
    sessionLoop bf net k i = ⟨i + 1, [], .response (net i)⟩ := by
  cases k <;> simp [sessionLoop, h]

/-- The session loop makes at least the one request it was entered for. -/
theorem sessionLoop_attempts_ge (bf : Int) (net : Nat → HttpResp) :
    ∀ k i, i + 1 ≤ (sessionLoop bf net k i).attempts := by
  intro k
  induction k with
  | zero =>
      intro i
      by_cases h : isRetryable (net i).status <;> simp [sessionLoop, h]
  | succ n ih =>
      intro i
      by_cases h : isRetryable (net i).status
      · simpa [sessionLoop, h] using le_trans (by omega) (ih (i + 1))
      · simp [sessionLoop, h]

/-- The session loop never exceeds its retry budget: entered at request
index `i` with `k` retries left, it makes at most `k + 1` further requests. -/
theorem sessionLoop_attempts_le (bf : Int) (net : Nat → HttpResp) :
    ∀ k i, (sessionLoop bf net k i).attempts ≤ i + k + 1 := by
  intro k
  induction k with
  | zero =>
      intro i
      by_cases h : isRetryable (net i).status <;> simp [sessionLoop, h]
  | succ n ih =>
      intro i
      by_cases h : isRetryable (net i).status
      · simpa [sessionLoop, h] using le_trans (ih (i + 1)) (by omega)
      · simp [sessionLoop, h]

/-- The backoff sleeps recorded by the session loop are exactly
`getBackoffTime` of the successive retry numbers. -/
theorem sessionLoop_backoffs_eq (bf : Int) (net : Nat → HttpResp) :
    ∀ k i, (sessionLoop bf net k i).backoffs =
      (List.range ((sessionLoop bf net k i).attempts - (i + 1))).map
        (fun j => getBackoffTime bf (i + 1 + j)) := by
  intro k
  induction k with
  | zero =>
      intro i
      by_cases h : isRetryable (net i).status <;> simp [sessionLoop, h]
  | succ n ih =>
      intro i
      by_cases h : isRetryable (net i).status
      · have hge := sessionLoop_attempts_ge bf net n (i + 1)
        obtain ⟨m, hm⟩ : ∃ m, (sessionLoop bf net n (i + 1)).attempts - (i + 2) = m :=
          ⟨_, rfl⟩
        have hsub : (sessionLoop bf net n (i + 1)).attempts - (i + 1) = m + 1 := by omega
        simp only [sessionLoop, h, if_true]
        rw [ih (i + 1), hm, hsub, List.range_succ_eq_map]
        simp only [List.map_cons, List.map_map]
        have hfun : ((fun j => getBackoffTime bf (i + 1 + j)) ∘ Nat.succ) =
            fun j => getBackoffTime bf (i + 1 + 1 + j) := by
          funext j
          simp only [Function.comp_apply]
          congr 1
          omega
        rw [hfun]
      · simp [sessionLoop, h]

/-- C2 counterexample: a 304 response is neither a 2xx success nor in the
retryable set, yet `send_beacon_data` does not treat it as a terminal server
rejection: `raise_for_status` only raises for 400–599, so the 304 falls
through to response validation and here even yields a success outcome. -/
theorem status304_not_rejected :
    is2xx 304 = false ∧ isRetryable 304 = false ∧
      (send_beacon_data defaultConfig net304 sampleData).outcome =
        .success [("status", .str "ok")] :=
  ⟨rfl, rfl, rfl⟩

/-- C2 (amended): a status in the force list {408, 429, 500, 502, 503, 504}
triggers a retry whenever retry budget remains (`MAX_RETRIES ≥ 1`); a status
outside the force list ends the delivery after exactly one attempt, and when
it lies in 400–599 the outcome is a terminal `HTTPError` carrying that
status, while a non-2xx status below 400 (such as 304) instead falls through
to response-body validation. -/
theorem status_classification (cfg : SystemConfig) (net : Nat → HttpResp) (d : BeaconData) :
    (isRetryable (net 0).status = true → 1 ≤ cfg.MAX_RETRIES →
        2 ≤ (send_beacon_data cfg net d).attempts) ∧
    (isRetryable (net 0).status = false → raisesForStatus (net 0).status = true →
        (send_beacon_data cfg net d).attempts = 1 ∧
        (send_beacon_data cfg net d).outcome = .httpError (some (net 0).status)) ∧
    (isRetryable (net 0).status = false → raisesForStatus (net 0).status = false →
        (send_beacon_data cfg net d).attempts = 1 ∧
        (send_beacon_data cfg net d).outcome = validateResponse (net 0).body) := by
  refine ⟨?_, ?_, ?_⟩
  · intro hret hmr
    obtain ⟨m, hm⟩ : ∃ m, cfg.MAX_RETRIES.toNat = m + 1 :=
      ⟨cfg.MAX_RETRIES.toNat - 1, by omega⟩
    have : (send_beacon_data cfg net d).attempts =
        (sessionLoop cfg.RETRY_DELAY net (m + 1) 0).attempts := by
      simp [send_beacon_data, sessionPost, hm]
    rw [this]
    simpa [sessionLoop, hret] using sessionLoop_attempts_ge cfg.RETRY_DELAY net m 1
  · intro hret hraise
    have hstop := sessionLoop_not_retryable cfg.RETRY_DELAY net cfg.MAX_RETRIES.toNat 0 hret
    constructor
    · simp [send_beacon_data, sessionPost, hstop]
    · simp [send_beacon_data, sessionPost, hstop, hraise]
  · intro hret hraise
    have hstop := sessionLoop_not_retryable cfg.RETRY_DELAY net cfg.MAX_RETRIES.toNat 0 hret
    constructor
    · simp [send_beacon_data, sessionPost, hstop]
    · simp [send_beacon_data, sessionPost, hstop, hraise]

/-- C2 witness: with the default configuration, a 503 first answer leads to a
second attempt, and a 400 answer gives exactly one attempt and a terminal
`HTTPError` carrying status 400. -/
theorem status_classification_witness :
    2 ≤ (send_beacon_data defaultConfig net503twice sampleData).attempts ∧
      (send_beacon_data defaultConfig net400 sampleData).attempts = 1 ∧
      (send_beacon_data defaultConfig net400 sampleData).outcome = .httpError (some 400) := by
  refine ⟨(status_classification defaultConfig net503twice sampleData).1 rfl (by decide), ?_⟩
  exact (status_classification defaultConfig net400 sampleData).2.1 rfl rfl

/-- C3 counterexample: with the default configuration (`RETRY_DELAY = 1`) and
a 503 first answer, the sleep before the first retry is 0, not `RETRY_DELAY`:
`Retry.get_backoff_time` returns 0 while the consecutive-error history holds
at most one entry, so the claimed first delay of `retryDelay` (and Scenario
C's doubling from it) fails. -/
theorem first_backoff_zero :
    (send_beacon_data defaultConfig net503twice sampleData).backoffs = [0, 2] ∧
      defaultConfig.RETRY_DELAY = 1 ∧ (0 : Int) ≠ 1 := by
  refine ⟨rfl, rfl, by norm_num⟩

/-- C3 (amended): the delivery makes at most `MAX_RETRIES` retries after the
first attempt; the sleep before the first retry is 0, and before the n-th
retry (n ≥ 2) it is `max 0 (min (RETRY_DELAY * 2^(n-1)) 120)`, so from the
second retry on, while the values stay in `[0, 120]`, the delay doubles on
each further retry; and on 503, 503, 200 with the default configuration
exactly 3 attempts are made, with backoffs `[0, 2 * RETRY_DELAY] = [0, 2]`
and final outcome success. -/
theorem retry_bound_and_backoff (cfg : SystemConfig) (net : Nat → HttpResp)
    (d : BeaconData) :
    (send_beacon_data cfg net d).attempts ≤ cfg.MAX_RETRIES.toNat + 1 ∧
    (send_beacon_data cfg net d).backoffs =
      (List.range ((send_beacon_data cfg net d).attempts - 1)).map
        (fun j => getBackoffTime cfg.RETRY_DELAY (j + 1)) ∧
    getBackoffTime cfg.RETRY_DELAY 1 = 0 ∧
    (∀ n, 2 ≤ n → 0 ≤ cfg.RETRY_DELAY → cfg.RETRY_DELAY * 2 ^ n ≤ 120 →
        getBackoffTime cfg.RETRY_DELAY (n + 1) = 2 * getBackoffTime cfg.RETRY_DELAY n) ∧
    ((send_beacon_data defaultConfig net503twice sampleData).attempts = 3 ∧
      (send_beacon_data defaultConfig net503twice sampleData).backoffs = [0, 2] ∧
      (send_beacon_data defaultConfig net503twice sampleData).outcome =
        .success [("status", .str "ok")]) := by
  refine ⟨?_, ?_, rfl, ?_, rfl, rfl, rfl⟩
  · simpa [send_beacon_data, sessionPost] using
      sessionLoop_attempts_le cfg.RETRY_DELAY net cfg.MAX_RETRIES.toNat 0
  · have h := sessionLoop_backoffs_eq cfg.RETRY_DELAY net cfg.MAX_RETRIES.toNat 0
    have hfun : (fun j => getBackoffTime cfg.RETRY_DELAY (0 + 1 + j)) =
        fun j => getBackoffTime cfg.RETRY_DELAY (j + 1) := by
      funext j
      congr 1
      omega
    simpa [send_beacon_data, sessionPost, hfun] using h
  · intro n hn h0 hcap
    obtain ⟨m, rfl⟩ : ∃ m, n = m + 2 := ⟨n - 2, by omega⟩
    have hmono : cfg.RETRY_DELAY * 2 ^ (m + 1) ≤ cfg.RETRY_DELAY * 2 ^ (m + 2) :=
      mul_le_mul_of_nonneg_left (pow_le_pow_right₀ (by norm_num) (by omega)) h0
    have hcapm : cfg.RETRY_DELAY * 2 ^ (m + 1) ≤ 120 := le_trans hmono hcap
    have hpos1 : (0 : Int) ≤ cfg.RETRY_DELAY * 2 ^ (m + 2) :=
      mul_nonneg h0 (pow_nonneg (by norm_num) _)
    have hpos2 : (0 : Int) ≤ cfg.RETRY_DELAY * 2 ^ (m + 1) :=
      mul_nonneg h0 (pow_nonneg (by norm_num) _)
    have e1 : m + 2 + 1 - 1 = m + 2 := by omega
    have e2 : m + 2 - 1 = m + 1 := by omega
    simp only [getBackoffTime, DEFAULT_BACKOFF_MAX]
    rw [if_neg (by omega : ¬ m + 2 + 1 ≤ 1), if_neg (by omega : ¬ m + 2 ≤ 1), e1, e2,
      min_eq_left hcap, min_eq_left hcapm, max_eq_right hpos1, max_eq_right hpos2,
      pow_succ]
    ring

/-- C3 witness: concrete instance of the bound, the zero sleep before the
first retry, the doubling from the second retry on, and Scenario C with the
default configuration. -/
theorem retry_bound_and_backoff_witness :
    (send_beacon_data defaultConfig net503twice sampleData).attempts ≤
        defaultConfig.MAX_RETRIES.toNat + 1 ∧
      getBackoffTime defaultConfig.RETRY_DELAY 1 = 0 ∧
      getBackoffTime defaultConfig.RETRY_DELAY 3 = 2 * getBackoffTime defaultConfig.RETRY_DELAY 2 ∧
      (send_beacon_data defaultConfig net503twice sampleData).attempts = 3 := by
  obtain ⟨h1, _, h3, h4, h5⟩ := retry_bound_and_backoff defaultConfig net503twice sampleData
  exact ⟨h1, h3, h4 2 (by decide) (by decide) (by decide), h5.1⟩

/-- C4: on a response whose status is 2xx, the outcome of `send_beacon_data`
is exactly the response-validation verdict: a success only for a body that is
a JSON object containing a `status` field; any other body yields the
invalid-response (`ValueError`) outcome, never a success. -/
theorem response_validation_on_2xx (cfg : SystemConfig) (net : Nat → HttpResp)
    (d : BeaconData) (r : HttpResp)
    (hfin : (sessionPost cfg net).final = .response r)
    (h2 : is2xx r.status = true) :
    (send_beacon_data cfg net d).outcome = validateResponse r.body ∧
    (∀ fields, validateResponse r.body = .success fields ↔
        (r.body = .json (.obj fields) ∧ (fields.map Prod.fst).contains "status" = true)) := by
  have hraise : raisesForStatus r.status = false := by
    simp only [is2xx, Bool.and_eq_true, decide_eq_true_eq] at h2
    simp only [raisesForStatus, Bool.and_eq_false_iff, decide_eq_false_iff_not]
    left
    omega
  constructor
  · simp [send_beacon_data, hfin, hraise]
  · intro fields
    cases hb : r.body with
    | invalid => simp [validateResponse]
    | json v =>
        cases v with
        | obj fs =>
            by_cases hc : (fs.map Prod.fst).contains "status" = true
            · constructor
              · intro hs
                simp only [validateResponse, hc, if_true] at hs
                cases hs
                exact ⟨rfl, hc⟩
              · rintro ⟨hEq, _⟩
                cases hEq
                simp only [validateResponse, hc, if_true]
            · constructor
              · intro hs
                simp only [validateResponse] at hs
                rw [if_neg hc] at hs
                exact SendOutcome.noConfusion hs
              · rintro ⟨hEq, hcf⟩
                cases hEq
                exact absurd hcf hc
        | null => simp [validateResponse]
        | bool b => simp [validateResponse]
        | num n => simp [validateResponse]
        | str s => simp [validateResponse]

/-- C4 witness: with a collector answering 200 and body `{"status": "ok"}`,
the outcome is the validation verdict on that body, a success. -/
theorem response_validation_on_2xx_witness :
    (send_beacon_data defaultConfig net200 sampleData).outcome = validateResponse okBody ∧
      validateResponse okBody = .success [("status", .str "ok")] := by
  refine ⟨(response_validation_on_2xx defaultConfig net200 sampleData ⟨200, okBody⟩ rfl rfl).1, rfl⟩

/-- C8: the payload `send_beacon_data` posts for a record is exactly the six
dataclass fields of that record, in declaration order, followed by
`checkpoint_id` holding the configured checkpoint identity. -/
theorem payload_fields_exact (cfg : SystemConfig) (net : Nat → HttpResp) (d : BeaconData) :
    (send_beacon_data cfg net d).payload =
      [("minor", .intVal d.minor), ("rssi", .intVal d.rssi),
       ("timestamp", .ratVal d.timestamp),
       ("battery_level", .optIntVal d.battery_level),
       ("temperature", .optRatVal d.temperature),
       ("humidity", .optRatVal d.humidity),
       ("checkpoint_id", .intVal cfg.CHECKPOINT_ID)] := rfl

/-- C9: a `send_beacon_data` call leaves every field of the shared
configuration and of the input record unchanged, whatever the collector
does: the payload is built on a fresh dict (`dataclasses.asdict`), so the
`checkpoint_id` insertion does not touch either. -/
theorem send_preserves_config_and_data (cfg : SystemConfig) (net : Nat → HttpResp)
    (d : BeaconData) :
    (send_beacon_data cfg net d).finalConfig = cfg ∧
      (send_beacon_data cfg net d).finalData = d :=
  ⟨rfl, rfl⟩

/-- One raw sighting (spec §3 `DetectionEvent`); only the identifier, the
signal strength and the timestamp take part in debouncing, and timestamps
are integral time units here. -/
structure DetectionEvent where
  beaconId : Int
  signalStrength : Int
  observedAt : Int
  deriving DecidableEq, Repr

/-- Modelled from the spec: the Debouncer state of spec §4.1, per-beacon
`lastAcceptedAt : timestamp | none`, as an association list from `beaconId`
to the last accepted timestamp (newest entry first). The `scanner.py` in the
repository elides the scanner class body ("Rest of the BeaconScanner class
implementation remains the same..."), so the Debouncer is taken from the
spec's state machine. -/
abbrev DebounceState := List (Int × Int)

/-- Modelled from the spec: `lastAcceptedAt` of a beacon, `none` for a beacon
never accepted (spec §4.1, initial state `idle`). -/
def lastAcceptedAt (st : DebounceState) (b : Int) : Option Int :=
  match st.find? (fun p => p.1 == b) with
  | some p => some p.2
  | none => none

/-- Modelled from the spec: `accept(event) -> bool` of the Debouncer
(spec §4.1): an event with `signalStrength` weaker than `rssiThreshold` is
rejected with no state change; a beacon that is `idle` (no prior acceptance,
or `now - lastAcceptedAt ≥ cooldown`) is accepted and `lastAcceptedAt` is
set to the event time; a beacon that is `cooling` is rejected with no state
change. -/
def accept (rssiThreshold cooldown : Int) (st : DebounceState) (e : DetectionEvent) :
    Bool × DebounceState :=
  if e.signalStrength < rssiThreshold then (false, st)
  else
    match lastAcceptedAt st e.beaconId with
    | none => (true, (e.beaconId, e.observedAt) :: st)
    | some t =>
        if cooldown ≤ e.observedAt - t then (true, (e.beaconId, e.observedAt) :: st)
        else (false, st)

/-- Modelled from the spec: feeding a sequence of events through the
Debouncer in order, collecting the accept verdicts and the final state. -/
def acceptAll (rssiThreshold cooldown : Int) (st : DebounceState) :
    List DetectionEvent → List Bool × DebounceState
  | [] => ([], st)
  | e :: es =>
      let r := accept rssiThreshold cooldown st e
      let rest := acceptAll rssiThreshold cooldown r.2 es
      (r.1 :: rest.1, rest.2)

/-- While a beacon is cooling (its `lastAcceptedAt` is within the window),
every event of that beacon is rejected and the state stays untouched. -/
theorem acceptAll_cooling (th cd b t : Int) (st : DebounceState)
    (hlook : lastAcceptedAt st b = some t) :
    ∀ es : List DetectionEvent, (∀ x ∈ es, x.beaconId = b ∧ x.observedAt - t < cd) →
      acceptAll th cd st es = (es.map (fun _ => false), st) := by
  intro es
  induction es with
  | nil => intro _; rfl
  | cons x xs ih =>
      intro hall
      obtain ⟨hb, htime⟩ := hall x (List.mem_cons_self x xs)
      have hstep : accept th cd st x = (false, st) := by
        by_cases hsig : x.signalStrength < th
        · simp [accept, hsig]
        · simp [accept, hsig, hb, hlook, not_le.mpr htime]
      have hrest := ih fun y hy => hall y (List.mem_cons_of_mem x hy)
      simp [acceptAll, hstep, hrest]

/-- C6 (spec-modelled): for a burst of events of one beacon that all fall
inside the cool-down window opened by the first event (and pass the signal
filter), the Debouncer accepts exactly the first event, rejects every later
one, and the state after the whole burst is exactly the state recorded by
that first acceptance — the rejections changed nothing. -/
theorem debounce_burst (th cd : Int) (e : DetectionEvent) (es : List DetectionEvent)
    (hsig : th ≤ e.signalStrength)
    (hall : ∀ x ∈ es, x.beaconId = e.beaconId ∧ x.observedAt - e.observedAt < cd) :
    acceptAll th cd ([] : DebounceState) (e :: es) =
      (true :: es.map (fun _ => false), [(e.beaconId, e.observedAt)]) := by
  have hstep : accept th cd ([] : DebounceState) e =
      (true, [(e.beaconId, e.observedAt)]) := by
    simp [accept, lastAcceptedAt, not_lt.mpr hsig]
  have hlook : lastAcceptedAt [(e.beaconId, e.observedAt)] e.beaconId = some e.observedAt := by
    simp [lastAcceptedAt]
  have hrest := acceptAll_cooling th cd e.beaconId e.observedAt _ hlook es hall
  simp [acceptAll, hstep, hrest]

/-- Burst events used as concrete debouncer inputs. -/
def ev0 : DetectionEvent := ⟨96, -60, 0⟩

/-- Second sighting of the same beacon, one time unit later. -/
def ev1 : DetectionEvent := ⟨96, -60, 1⟩

/-- Third sighting of the same beacon, still within the window. -/
def ev2 : DetectionEvent := ⟨96, -61, 1⟩

/-- A sighting far below the signal threshold, long after the window. -/
def ev3 : DetectionEvent := ⟨96, -80, 10⟩

/-- C6 witness: beacon 96 seen three times within a 2-unit window is accepted
once and rejected twice, and the state keeps only the first acceptance. -/
theorem debounce_burst_witness :
    acceptAll (-75) 2 ([] : DebounceState) [ev0, ev1, ev2] =
      ([true, false, false], [(96, 0)]) := by
  have h := debounce_burst (-75) 2 ev0 [ev1, ev2] (by decide) (by decide)
  simpa [ev0] using h

/-- C7 (spec-modelled): an event whose signal strength is weaker than the
configured threshold is never accepted, whatever the debounce state and the
timing, and the state is left unchanged. -/
theorem weak_signal_never_accepted (th cd : Int) (st : DebounceState) (e : DetectionEvent)
    (h : e.signalStrength < th) :
    accept th cd st e = (false, st) := by
  simp [accept, h]

/-- C7 witness: a sighting at -80 dBm against a -75 threshold is rejected
with the state untouched, even though its beacon's window has long elapsed. -/
theorem weak_signal_never_accepted_witness :
    accept (-75) 2 ([(96, 0)] : DebounceState) ev3 = (false, [(96, 0)]) :=
  weak_signal_never_accepted (-75) 2 [(96, 0)] ev3 (by decide)

/-- Result the network gives the single bare `requests.post` of `main.py`:
either a response (status code and text) or a raised
`requests.exceptions.RequestException`. -/
inductive PostAttempt where
  | response (status : Nat) (text : String)
  | requestException (msg : String)

/-- What `post_to_handler` prints before returning; the function returns
`None` in every case, so each run ends in exactly one of these. -/
inductive PostOutcome where
  | printedSuccess
  | printedFailure (status : Nat) (text : String)
  | printedError (msg : String)
  deriving DecidableEq, Repr

/-- Model of `post_to_handler` in `main.py`: one `requests.post` with no
mounted retry adapter, a comparison of the status against 200, and a
`try/except` catching every `RequestException` and printing it. `net i` is
what the network would answer the i-th request; only `net 0` is ever
consulted. -/
def post_to_handler (net : Nat → PostAttempt) : PostOutcome :=
  match net 0 with
  | .requestException m => .printedError m
  | .response s t => if s = 200 then .printedSuccess else .printedFailure s t

/-- C10: the legacy delivery path makes exactly one HTTP POST attempt — its
result depends only on the first network answer, so there is no retry — and
a `RequestException` is caught and only printed: the function still returns
normally, with the printed-error outcome. -/
theorem post_single_attempt_no_raise (net net' : Nat → PostAttempt) (m : String) :
    (net 0 = net' 0 → post_to_handler net = post_to_handler net') ∧
    (net 0 = .requestException m → post_to_handler net = .printedError m) := by
  constructor
  · intro h
    simp [post_to_handler, h]
  · intro h
    simp [post_to_handler, h]

/-- C10 witness: a network that refuses the connection on every attempt makes
`post_to_handler` return normally with the printed error. -/
theorem post_single_attempt_no_raise_witness :
    post_to_handler (fun _ => .requestException "connection refused") =
      .printedError "connection refused" :=
  (post_single_attempt_no_raise (fun _ => .requestException "connection refused")
      (fun _ => .requestException "connection refused") "connection refused").2 rfl

end CrossCountry
